import Mathlib

/-
Verification of the RedisAI Python client (redisai/client.py).

The client builds positional argument lists for RedisAI commands, ships
them through an underlying transport (`execute_command`), and decodes the
replies.  We embed the argument-building and reply-decoding logic as pure
Lean functions.  A call that raises a Python exception before contacting
the transport is modelled as `Except.error`; a call that would issue the
transport request is modelled as `Except.ok args`, where `args` is the
exact positional argument list handed to `execute_command`.

The helper module `redisai/utils.py` (numpy2blob, blob2numpy, list2dict,
un_bytize, listify) is referenced by client.py but its source is not part
of the sources provided; those helpers are modelled from the
description in the specification of the tensor codec and the reply-decoding
policy, and are marked `Modelled from the spec:` below.
-/

set_option autoImplicit false

namespace RedisAI

/-- Supported RedisAI scalar dtypes (spec §3: "enumerated scalar type
(e.g. float32, float64, int32, int64, ...)"). -/
inductive Dtype where
  | FLOAT | DOUBLE | INT8 | INT16 | INT32 | INT64 | UINT8 | UINT16
  deriving DecidableEq, Repr

/-- Byte width of one element of the given dtype (the numpy itemsize). -/
def Dtype.itemsize : Dtype → Nat
  | .FLOAT => 4
  | .DOUBLE => 8
  | .INT8 => 1
  | .INT16 => 2
  | .INT32 => 4
  | .INT64 => 8
  | .UINT8 => 1
  | .UINT16 => 2

/-- The RedisAI wire name of a dtype, as placed in the argument list. -/
def Dtype.name : Dtype → String
  | .FLOAT => "FLOAT"
  | .DOUBLE => "DOUBLE"
  | .INT8 => "INT8"
  | .INT16 => "INT16"
  | .INT32 => "INT32"
  | .INT64 => "INT64"
  | .UINT8 => "UINT8"
  | .UINT16 => "UINT16"

/-- Parse a RedisAI wire dtype name back into a `Dtype`. -/
def parseDtype (s : String) : Option Dtype :=
  if s = "FLOAT" then some .FLOAT
  else if s = "DOUBLE" then some .DOUBLE
  else if s = "INT8" then some .INT8
  else if s = "INT16" then some .INT16
  else if s = "INT32" then some .INT32
  else if s = "INT64" then some .INT64
  else if s = "UINT8" then some .UINT8
  else if s = "UINT16" then some .UINT16
  else none

/-- A native numpy array, viewed at the level the codec works at: a dtype,
a shape, and the flat list of element bit patterns in row-major order.
Each element is recorded as the natural number whose base-256
little-endian digits are the raw bytes of the element in memory, so the
codec direction "serialize the raw memory contents" is exact for every dtype,
floating-point included (the codec never interprets the bits). -/
structure NDArray where
  dtype : Dtype
  shape : List Nat
  data : List Nat
  deriving DecidableEq, Repr

/-- Well-formedness of a native array: the flat element count matches the
product of the shape and the bit pattern of every element fits in the byte
width of the dtype (spec §3 tensor-descriptor invariant). -/
def NDArray.wf (a : NDArray) : Prop :=
  a.data.length = a.shape.prod ∧ ∀ v ∈ a.data, v < 2 ^ (8 * a.dtype.itemsize)

instance (a : NDArray) : Decidable a.wf := by
  unfold NDArray.wf; infer_instance

/-- Little-endian base-256 byte serialization of one scalar bit pattern. -/
def bytesOfScalar (w v : Nat) : List Nat :=
  (List.range w).map fun i => v / 256 ^ i % 256

/-- Reassemble a scalar bit pattern from its little-endian bytes. -/
def scalarOfBytes (bs : List Nat) : Nat :=
  bs.foldr (fun b acc => b + 256 * acc) 0

/-- Modelled from the spec: `utils.numpy2blob` (not in the provided
sources).  Encode direction of the tensor codec (spec §4.2): derive the
dtype tag from the element type of the array, the shape from its dimensions,
and serialize the raw memory contents to a binary blob in native byte
layout. -/
def numpy2blob (t : NDArray) : Dtype × List Nat × List Nat :=
  (t.dtype, t.shape, t.data.flatMap (bytesOfScalar t.dtype.itemsize))

/-- Modelled from the spec: `utils.blob2numpy` (not in the provided
sources).  Decode direction of the tensor codec (spec §4.2): reinterpret
the bytes of the blob as a contiguous array of the given element type and
reshape to the given shape; the byte-length/shape consistency is not
checked (spec §4.2, §9). -/
def blob2numpy (blob : List Nat) (shape : List Nat) (dtype : Dtype) : NDArray :=
  let w := dtype.itemsize
  { dtype := dtype
    shape := shape
    data := (List.range (blob.length / w)).map fun i =>
      scalarOfBytes ((blob.drop (w * i)).take w) }

/-- A positional argument token, as accumulated in the Python `args` list
that is handed to `execute_command`.  `pynone` stands for the Python value
`None` placed in the list (as happens for an omitted dtype on the
plain-sequence tensorset path). -/
inductive Tok where
  | str (s : String)
  | int (n : Int)
  | blob (b : List Nat)
  | pynone
  deriving DecidableEq, Repr

/-- The Python exceptions the client raises locally, before any transport
request is issued. -/
inductive PyError where
  | typeError (msg : String)
  | valueError (msg : String)
  | keyError (k : String)
  deriving DecidableEq, Repr

/-- Runtime classification of the `tensor` argument of `tensorset`
(client.py lines 126-135 branch on `isinstance`): a numpy array, a plain
Python list or tuple of value tokens, or any other runtime type (recorded
by its type name, used in the error message). -/
inductive TensorValue where
  | ndarray (a : NDArray)
  | seq (l : List Tok)
  | other (tyname : String)
  deriving Repr

/-- The TypeError message of the fallback branch of tensorset
(client.py lines 134-135). -/
def tensorsetTypeErrorMsg (tyname : String) : String :=
  "``tensor`` argument must be a numpy array or a list or a tuple, but got " ++ tyname

/-- Embedding of Client.tensorset (client.py lines 114-136): builds the
`AI.TENSORSET` argument list.  Numpy arrays go through `numpy2blob` and
are shipped as a `BLOB`; plain lists/tuples are shipped as `VALUES` with
shape defaulting to `(len(tensor),)`; anything else raises `TypeError`
before `execute_command` is called.  The returned `.ok` list is exactly
the argument list passed to `execute_command`. -/
def tensorset (key : String) (tensor : TensorValue)
    (shape : Option (List Nat)) (dtype : Option String) :
    Except PyError (List Tok) :=
  match tensor with
  | .ndarray a =>
      match numpy2blob a with
      | (dt, shp, blob) =>
          .ok ([Tok.str "AI.TENSORSET", Tok.str key, Tok.str dt.name]
                ++ shp.map (fun n => Tok.int n)
                ++ [Tok.str "BLOB", Tok.blob blob])
  | .seq l =>
      let shp := match shape with
        | none => [l.length]
        | some s => s
      let dtypeTok := match dtype with
        | none => Tok.pynone
        | some d => Tok.str d
      .ok ([Tok.str "AI.TENSORSET", Tok.str key, dtypeTok]
            ++ shp.map (fun n => Tok.int n)
            ++ [Tok.str "VALUES"] ++ l)
  | .other tyname => .error (.typeError (tensorsetTypeErrorMsg tyname))

/-- Modelled from the spec: `utils.listify` (not in the provided sources);
spec §2 calls it "miscellaneous value coercion".  It wraps a bare value in
a list and leaves sequences unchanged; on the list-valued `inputs` and
`outputs` arguments used by `modelset` it is the identity. -/
def listify (l : List String) : List String := l

/-- Python truthiness of an optional list, as tested by
`all((inputs, outputs))` in client.py line 79: `None` and the empty list
are falsy, a non-empty list is truthy. -/
def truthy : Option (List String) → Bool
  | none => false
  | some l => !l.isEmpty

/-- Model of the Python method upper() as used by backend.upper() in client.py line
78: upper-case every character (backend identifiers are ASCII). -/
def pyUpper (s : String) : String := ⟨s.data.map Char.toUpper⟩

/-- The ValueError message of the TF validation in modelset
(client.py lines 80-81). -/
def modelsetValueErrorMsg : String :=
  "Require keyword arguments input and output for TF models"

/-- The argument-list prefix built by `modelset` before the TF branch
(client.py lines 69-76): command name, model name, backend, device, then
the optional BATCHSIZE / MINBATCHSIZE / TAG groups. -/
def modelsetBaseArgs (name backend device : String)
    (batch minbatch : Option Int) (tag : Option String) : List Tok :=
  [Tok.str "AI.MODELSET", Tok.str name, Tok.str backend, Tok.str device]
    ++ (match batch with
        | some b => [Tok.str "BATCHSIZE", Tok.int b]
        | none => [])
    ++ (match minbatch with
        | some b => [Tok.str "MINBATCHSIZE", Tok.int b]
        | none => [])
    ++ (match tag with
        | some t => [Tok.str "TAG", Tok.str t]
        | none => [])

/-- Embedding of Client.modelset (client.py lines 42-85): builds the `AI.MODELSET`
argument list.  When backend upper-cases to TF, both `inputs` and
`outputs` must be truthy, else a ValueError is raised before
`execute_command`; when present they are appended as the `INPUTS` group
followed by the `OUTPUTS` group, and the model data bytes always come
last. -/
def modelset (name backend device : String) (data : List Nat)
    (batch minbatch : Option Int) (tag : Option String)
    (inputs outputs : Option (List String)) :
    Except PyError (List Tok) :=
  let args := modelsetBaseArgs name backend device batch minbatch tag
  if pyUpper backend = "TF" then
    if !(truthy inputs && truthy outputs) then
      .error (.valueError modelsetValueErrorMsg)
    else
      .ok (args ++ [Tok.str "INPUTS"]
            ++ (listify (inputs.getD [])).map Tok.str
            ++ [Tok.str "OUTPUTS"]
            ++ (listify (outputs.getD [])).map Tok.str
            ++ [Tok.blob data])
  else
    .ok (args ++ [Tok.blob data])

/-- Target scalar kind of the value-list coercion (`float` or `int` in
client.py line 166). -/
inductive ScalarKind where
  | float | int
  deriving DecidableEq, Repr

/-- A raw reply element from the transport: a binary string holding text
(kept decoded here), a binary blob, an integer, a nested list, or — after
value-list coercion — a token tagged with the scalar kind it was converted
to.  The numeric conversion itself (Python `float(x)` / `int(x)`) is
abstracted as the tagging constructor `coerced`, since which kind is
chosen is the observable the client decides. -/
inductive RVal where
  | txt (s : String)
  | blob (b : List Nat)
  | int (n : Int)
  | list (l : List RVal)
  | coerced (k : ScalarKind) (v : RVal)
  deriving Repr

/-- Model of the Python method lower(): lower-case every character (reply keys are
ASCII). -/
def pyLower (s : String) : String := ⟨s.data.map Char.toLower⟩

/-- Decode a reply key to case-normalized text (spec §4.1 reply-decoding
policy: "every even-indexed element as a key (decoded to text,
case-normalized)").  Per the reply-record invariant of the spec, keys are
always decodable to text; a non-text key cannot occur and is mapped to
the empty string. -/
def decodeKey : RVal → String
  | .txt s => pyLower s
  | _ => ""

/-- Group a flat alternating key/value reply into (key, value) pairs:
element 2j is the j-th key, element 2j+1 its value. -/
def pairs : List RVal → List (RVal × RVal)
  | a :: b :: rest => (a, b) :: pairs rest
  | _ => []

/-- Insert-or-update on an insertion-ordered mapping, with Python dict
semantics: an existing key keeps its position and gets the new value, a
new key is appended at the end. -/
def upsert (m : List (String × RVal)) (k : String) (v : RVal) :
    List (String × RVal) :=
  if m.any (fun p => p.1 = k) then
    m.map (fun p => if p.1 = k then (k, v) else p)
  else m ++ [(k, v)]

/-- Modelled from the spec: `utils.list2dict` (not in the provided
sources).  Spec §4.1 reply-decoding policy: "a flat alternating key/value
reply is folded into a mapping by treating every even-indexed element as
a key (decoded to text, case-normalized) and every odd-indexed element as
its value".  In this embedding text is already decoded, so the element-wise
decoding of nested list values is the identity. -/
def list2dict (reply : List RVal) : List (String × RVal) :=
  (pairs reply).foldl (fun m kv => upsert m (decodeKey kv.1) kv.2) []

/-- Modelled from the spec: `utils.un_bytize` (not in the provided
sources).  Spec §4.2 value-list coercion: "given a flat list of
textual/numeric tokens and a target scalar kind (floating-point or
integer), converts every element in place"; the conversion is recorded by
tagging each element with the target kind. -/
def un_bytize (arr : List RVal) (target : ScalarKind) : List RVal :=
  arr.map (fun v => RVal.coerced target v)

/-- The membership test of the declared dtype against FLOAT and DOUBLE in
client.py line 166. -/
def isFloatDtype : RVal → Bool
  | .txt s => s = "FLOAT" || s = "DOUBLE"
  | _ => false

/-- Mapping lookup, as Python `res[key]` (first matching entry). -/
def lookup (m : List (String × RVal)) (k : String) : Option RVal :=
  (m.find? (fun p => p.1 = k)).map (fun p => p.2)

/-- Read a reply shape (a nested list of integers) into a `List Nat`. -/
def parseShape : RVal → Option (List Nat)
  | .list l =>
      l.foldr
        (fun v acc =>
          match v, acc with
          | .int n, some r => if 0 ≤ n then some (n.toNat :: r) else none
          | _, _ => none)
        (some [])
  | _ => none

/-- What `tensorget` returns to the caller: the decoded mapping (meta-only
and values paths) or a reconstructed native array (as-numpy path). -/
inductive TGResult where
  | dict (m : List (String × RVal))
  | arr (a : NDArray)
  deriving Repr

/-- The `AI.TENSORGET` argument list built by `Client.tensorget`
(client.py lines 152-157): always `META`; then `BLOB` when `as_numpy` and
not `meta_only`, `VALUES` when not `as_numpy` and not `meta_only`, and
nothing more when `meta_only`. -/
def tensorget_args (key : String) (as_numpy meta_only : Bool) : List Tok :=
  [Tok.str "AI.TENSORGET", Tok.str key, Tok.str "META"]
    ++ (if meta_only then []
        else if as_numpy then [Tok.str "BLOB"]
        else [Tok.str "VALUES"])

/-- The reply-decoding half of `Client.tensorget` (client.py lines
159-168), applied to the raw transport reply: fold the reply into a
mapping; return it as-is when `meta_only`; reconstruct a native array via
`blob2numpy` when `as_numpy`; otherwise coerce the value list element-wise
to float or int according to the declared dtype and return the mapping
with the coerced values.  A missing mapping key is a Python KeyError. -/
def tensorget_decode (as_numpy meta_only : Bool) (reply : List RVal) :
    Except PyError TGResult :=
  let res := list2dict reply
  if meta_only then .ok (.dict res)
  else if as_numpy then
    match lookup res "blob", lookup res "shape", lookup res "dtype" with
    | some (.blob b), some shp, some (.txt ds) =>
        match parseShape shp, parseDtype ds with
        | some s, some d => .ok (.arr (blob2numpy b s d))
        | _, _ => .error (.valueError "invalid tensor metadata")
    | none, _, _ => .error (.keyError "blob")
    | _, none, _ => .error (.keyError "shape")
    | _, _, none => .error (.keyError "dtype")
    | _, _, _ => .error (.valueError "invalid tensor metadata")
  else
    match lookup res "dtype" with
    | none => .error (.keyError "dtype")
    | some dv =>
        match lookup res "values" with
        | some (.list vs) =>
            let target : ScalarKind :=
              if isFloatDtype dv then .float else .int
            .ok (.dict (upsert res "values" (.list (un_bytize vs target))))
        | some _ => .error (.valueError "invalid values reply")
        | none => .error (.keyError "values")

/- ### Codec lemmas -/

theorem bytesOfScalar_length (w v : Nat) : (bytesOfScalar w v).length = w := by
  simp [bytesOfScalar]

theorem Dtype.itemsize_pos (d : Dtype) : 0 < d.itemsize := by
  cases d <;> simp [Dtype.itemsize]

theorem bytesOfScalar_succ (w v : Nat) :
    bytesOfScalar (w + 1) v = v % 256 :: bytesOfScalar w (v / 256) := by
  simp only [bytesOfScalar, List.range_succ_eq_map, List.map_cons, List.map_map,
    pow_zero, Nat.div_one]
  congr 1
  apply List.map_congr_left
  intro i _
  simp only [Function.comp_apply]
  rw [Nat.div_div_eq_div_mul]
  rw [show 256 * 256 ^ i = 256 ^ Nat.succ i by rw [pow_succ, mul_comm]]

theorem scalarOfBytes_bytesOfScalar (w v : Nat) (h : v < 2 ^ (8 * w)) :
    scalarOfBytes (bytesOfScalar w v) = v := by
  induction w generalizing v with
  | zero =>
      simp only [Nat.mul_zero, pow_zero, Nat.lt_one_iff] at h
      simp [bytesOfScalar, scalarOfBytes, h]
  | succ w ih =>
      rw [bytesOfScalar_succ]
      have hdiv : v / 256 < 2 ^ (8 * w) := by
        rw [Nat.div_lt_iff_lt_mul (by norm_num : (0:Nat) < 256)]
        calc v < 2 ^ (8 * (w + 1)) := h
          _ = 2 ^ (8 * w) * 256 := by rw [Nat.mul_succ, pow_add]; norm_num
      simp only [scalarOfBytes, List.foldr_cons]
      have := ih (v / 256) hdiv
      simp only [scalarOfBytes] at this
      rw [this, Nat.mod_add_div]

theorem flatMap_bytes_length (w : Nat) (l : List Nat) :
    (l.flatMap (bytesOfScalar w)).length = w * l.length := by
  induction l with
  | nil => simp
  | cons a t ih =>
      simp only [List.flatMap_cons, List.length_append, bytesOfScalar_length, ih,
        List.length_cons]
      ring

theorem flatMap_bytes_extract (w : Nat) (l : List Nat) (i : Nat) (hi : i < l.length) :
    ((l.flatMap (bytesOfScalar w)).drop (w * i)).take w = bytesOfScalar w l[i] := by
  induction l generalizing i with
  | nil => simp at hi
  | cons a t ih =>
      cases i with
      | zero =>
          simp only [Nat.mul_zero, List.drop_zero, List.flatMap_cons,
            List.getElem_cons_zero]
          have h := List.take_left (bytesOfScalar w a) (t.flatMap (bytesOfScalar w))
          rw [bytesOfScalar_length] at h
          exact h
      | succ j =>
          have hstep : w * (j + 1) = (bytesOfScalar w a).length + w * j := by
            rw [bytesOfScalar_length]; ring
          rw [List.flatMap_cons, hstep, List.drop_append, List.getElem_cons_succ]
          exact ih j (by simpa using hi)

/-- C1: For every supported dtype and every native numpy array, encoding
the array with the tensor codec (the native-array path of tensorset,
`numpy2blob`) and then decoding the resulting (dtype, shape, blob) triple
(the as_numpy path of tensorget, `blob2numpy`) yields an array with exactly
the original values and shape. -/
theorem tensor_codec_roundtrip (a : NDArray) (h : a.wf) :
    blob2numpy (numpy2blob a).2.2 (numpy2blob a).2.1 (numpy2blob a).1 = a := by
  obtain ⟨hlen, hbound⟩ := h
  cases a with
  | mk d s dat =>
      simp only [numpy2blob, blob2numpy, NDArray.mk.injEq, true_and]
      have hw : 0 < d.itemsize := d.itemsize_pos
      rw [flatMap_bytes_length, Nat.mul_div_cancel_left _ hw]
      apply List.ext_getElem
      · simp only [List.length_map, List.length_range]
      · intro i h1 h2
        simp only [List.getElem_map, List.getElem_range]
        rw [flatMap_bytes_extract d.itemsize dat i h2]
        exact scalarOfBytes_bytesOfScalar _ _ (hbound _ (List.getElem_mem h2))

/-- Witness for C1: a concrete well-formed FLOAT array of shape (2,2)
round-trips exactly. -/
theorem tensor_codec_roundtrip_witness :
    NDArray.wf ⟨.FLOAT, [2, 2], [1, 2, 3, 4294967295]⟩ ∧
      blob2numpy (numpy2blob ⟨.FLOAT, [2, 2], [1, 2, 3, 4294967295]⟩).2.2
          (numpy2blob ⟨.FLOAT, [2, 2], [1, 2, 3, 4294967295]⟩).2.1
          (numpy2blob ⟨.FLOAT, [2, 2], [1, 2, 3, 4294967295]⟩).1 =
        ⟨.FLOAT, [2, 2], [1, 2, 3, 4294967295]⟩ :=
  ⟨by decide, tensor_codec_roundtrip _ (by decide)⟩

/- ### Command-building theorems -/

theorem pyUpper_TF : pyUpper "TF" = "TF" := rfl

/-- C2: modelset with backend "TF" and an absent input or output node-name
list fails with the ValueError before `execute_command` is reached (the
`.error` result is produced before any transport request); when both lists
are supplied (non-empty), the constructed argument list is the prefix
followed by the `INPUTS` group then the `OUTPUTS` group, in that order,
with the model data last. -/
theorem modelset_tf_node_names (name device : String) (data : List Nat)
    (batch minbatch : Option Int) (tag : Option String)
    (io : Option (List String)) (inputs outputs : List String)
    (hi : inputs ≠ []) (ho : outputs ≠ []) :
    modelset name "TF" device data batch minbatch tag none io =
        .error (.valueError modelsetValueErrorMsg) ∧
      modelset name "TF" device data batch minbatch tag io none =
        .error (.valueError modelsetValueErrorMsg) ∧
      modelset name "TF" device data batch minbatch tag (some inputs) (some outputs) =
        .ok (modelsetBaseArgs name "TF" device batch minbatch tag
              ++ [Tok.str "INPUTS"] ++ inputs.map Tok.str
              ++ [Tok.str "OUTPUTS"] ++ outputs.map Tok.str
              ++ [Tok.blob data]) := by
  refine ⟨?_, ?_, ?_⟩ <;>
    simp [modelset, truthy, listify, hi, ho, pyUpper_TF]

/-- Witness for C2: at concrete inputs, supplying both node-name lists
yields the well-formed argument list with the INPUTS group before the
OUTPUTS group. -/
theorem modelset_tf_node_names_witness :
    (["a"] : List String) ≠ [] ∧ (["o"] : List String) ≠ [] ∧
      modelset "m" "TF" "CPU" [7] none none none (some ["a"]) (some ["o"]) =
        .ok (modelsetBaseArgs "m" "TF" "CPU" none none none
              ++ [Tok.str "INPUTS"] ++ (["a"] : List String).map Tok.str
              ++ [Tok.str "OUTPUTS"] ++ (["o"] : List String).map Tok.str
              ++ [Tok.blob [7]]) :=
  ⟨by decide, by decide,
    (modelset_tf_node_names "m" "CPU" [7] none none none none ["a"] ["o"]
      (by decide) (by decide)).2.2⟩

/-- C10: because the mandatory-node-names check is `all((inputs, outputs))`
(Python truthiness) and the backend test upper-cases first, any backend
whose upper-casing is "TF" with an empty input or output node-name list
behaves exactly like an absent one: the ValueError is raised before any
transport request. -/
theorem modelset_tf_empty_node_names (name backend device : String)
    (data : List Nat) (batch minbatch : Option Int) (tag : Option String)
    (io io2 : Option (List String)) (hb : pyUpper backend = "TF") :
    modelset name backend device data batch minbatch tag (some []) io =
        modelset name backend device data batch minbatch tag none io ∧
      modelset name backend device data batch minbatch tag (some []) io =
        .error (.valueError modelsetValueErrorMsg) ∧
      modelset name backend device data batch minbatch tag io2 (some []) =
        modelset name backend device data batch minbatch tag io2 none ∧
      modelset name backend device data batch minbatch tag io2 (some []) =
        .error (.valueError modelsetValueErrorMsg) := by
  refine ⟨?_, ?_, ?_, ?_⟩ <;> simp [modelset, truthy, hb]

/-- Witness for C10: lower-case backend "tf" with an empty input list and
a non-empty output list raises the validation error. -/
theorem modelset_tf_empty_node_names_witness :
    pyUpper "tf" = "TF" ∧
      modelset "m" "tf" "CPU" [7] none none none (some []) (some ["o"]) =
        .error (.valueError modelsetValueErrorMsg) :=
  ⟨by decide,
    (modelset_tf_empty_node_names "m" "tf" "CPU" [7] none none none
      (some ["o"]) none (by decide)).2.1⟩

/-- C3: tensorset with a tensor value that is neither a numpy array nor a
plain list/tuple raises TypeError; the `.error` result means
`execute_command` is never reached, so no transport request is issued. -/
theorem tensorset_type_error (key tyname : String)
    (shape : Option (List Nat)) (dtype : Option String) :
    tensorset key (.other tyname) shape dtype =
      .error (.typeError (tensorsetTypeErrorMsg tyname)) := rfl

/-- C4 counterexample: a plain-sequence tensorset call with explicit shape
(2,2) but only three values builds its argument list without any error, so
the element count (3) differs from the product of the supplied shape (4):
the count-equals-product clause of the claim fails on this call. -/
theorem tensorset_seq_count_cex :
    tensorset "x" (.seq [Tok.int 1, Tok.int 2, Tok.int 3])
        (some [2, 2]) (some "FLOAT") =
        .ok [Tok.str "AI.TENSORSET", Tok.str "x", Tok.str "FLOAT",
          Tok.int 2, Tok.int 2, Tok.str "VALUES",
          Tok.int 1, Tok.int 2, Tok.int 3] ∧
      ([Tok.int 1, Tok.int 2, Tok.int 3] : List Tok).length ≠ [2, 2].prod := by
  exact ⟨rfl, by decide⟩

/-- C4 (amended): on the plain-sequence path with explicit shape and
dtype, the built argument list is dtype, shape tokens, then the `VALUES`
marker immediately followed by the values, whose count is the sequence
length (the client does not check it against the product of the shape); when
shape is omitted it defaults to the one-dimensional shape (length,), for
which count equals product; and the concrete example of the spec holds
exactly. -/
theorem tensorset_seq_args (key d : String) (l : List Tok) (sh : List Nat) :
    tensorset key (.seq l) (some sh) (some d) =
        .ok ([Tok.str "AI.TENSORSET", Tok.str key, Tok.str d]
              ++ sh.map (fun n => Tok.int n) ++ [Tok.str "VALUES"] ++ l) ∧
      tensorset key (.seq l) none (some d) =
        .ok ([Tok.str "AI.TENSORSET", Tok.str key, Tok.str d]
              ++ [Tok.int l.length] ++ [Tok.str "VALUES"] ++ l) ∧
      ([l.length] : List Nat).prod = l.length ∧
      tensorset "x" (.seq [Tok.int 1, Tok.int 2, Tok.int 3, Tok.int 4])
          (some [2, 2]) (some "FLOAT") =
        .ok [Tok.str "AI.TENSORSET", Tok.str "x", Tok.str "FLOAT",
          Tok.int 2, Tok.int 2, Tok.str "VALUES",
          Tok.int 1, Tok.int 2, Tok.int 3, Tok.int 4] := by
  refine ⟨rfl, rfl, by simp, rfl⟩

/-- C5: on the native-array path, the dtype and shape tokens come from the
array itself (via `numpy2blob`), the explicit `shape`/`dtype` arguments
have no effect on the result, and the payload is the raw bytes of the array
after the `BLOB` marker — the `VALUES` marker never appears among the
dtype, shape, and payload tokens (only the caller-chosen key string could
coincide with it). -/
theorem tensorset_ndarray_args (key : String) (a : NDArray)
    (shape : Option (List Nat)) (dtype : Option String) :
    tensorset key (.ndarray a) shape dtype =
        .ok ([Tok.str "AI.TENSORSET", Tok.str key, Tok.str a.dtype.name]
              ++ a.shape.map (fun n => Tok.int n)
              ++ [Tok.str "BLOB",
                Tok.blob (a.data.flatMap (bytesOfScalar a.dtype.itemsize))]) ∧
      tensorset key (.ndarray a) shape dtype =
        tensorset key (.ndarray a) none none ∧
      Tok.str "VALUES" ∉
        ([Tok.str a.dtype.name]
          ++ a.shape.map (fun n => Tok.int n)
          ++ [Tok.str "BLOB",
            Tok.blob (a.data.flatMap (bytesOfScalar a.dtype.itemsize))]) := by
  refine ⟨rfl, rfl, ?_⟩
  rcases a with ⟨d, s, dat⟩
  cases d <;> simp [Dtype.name, List.mem_append, List.mem_map]

/-- C9: a plain-sequence tensorset call with dtype omitted raises no local
error: the argument list is built with the Python value None in the dtype
position and is handed to the transport (`.ok`). -/
theorem tensorset_seq_none_dtype (key : String) (l : List Tok)
    (shape : Option (List Nat)) :
    tensorset key (.seq l) shape none =
      .ok ([Tok.str "AI.TENSORSET", Tok.str key, Tok.pynone]
            ++ (match shape with
                | none => [l.length]
                | some s => s).map (fun n => Tok.int n)
            ++ [Tok.str "VALUES"] ++ l) := rfl

/- ### Reply-decoding lemmas and theorems -/

theorem pairs_length (l : List RVal) : (pairs l).length = l.length / 2 := by
  match l with
  | [] => rfl
  | [a] => simp [pairs]
  | a :: b :: rest =>
      simp only [pairs, List.length_cons, pairs_length rest]
      omega

theorem foldl_upsert_fresh (ps : List (RVal × RVal)) :
    ∀ m : List (String × RVal),
      (∀ kv ∈ ps, ∀ p ∈ m, p.1 ≠ decodeKey kv.1) →
      (ps.map (fun kv => decodeKey kv.1)).Nodup →
      ps.foldl (fun m kv => upsert m (decodeKey kv.1) kv.2) m =
        m ++ ps.map (fun kv => (decodeKey kv.1, kv.2)) := by
  induction ps with
  | nil => intro m _ _; simp
  | cons kv rest ih =>
      intro m hdisj hnodup
      rw [List.map_cons] at hnodup
      have hne : decodeKey kv.1 ∉ rest.map (fun kv => decodeKey kv.1) :=
        (List.nodup_cons.1 hnodup).1
      have htail : (rest.map (fun kv => decodeKey kv.1)).Nodup :=
        (List.nodup_cons.1 hnodup).2
      have hcond : ¬(m.any (fun p => p.1 = decodeKey kv.1) = true) := by
        simp only [List.any_eq_true, decide_eq_true_eq, not_exists, not_and]
        intro p hp
        exact hdisj kv (List.mem_cons_self kv rest) p hp
      have hup : upsert m (decodeKey kv.1) kv.2 = m ++ [(decodeKey kv.1, kv.2)] := by
        unfold upsert
        rw [if_neg hcond]
      have hdisj2 : ∀ kv2 ∈ rest, ∀ p ∈ m ++ [(decodeKey kv.1, kv.2)],
          p.1 ≠ decodeKey kv2.1 := by
        intro kv2 hkv2 p hp
        rcases List.mem_append.1 hp with hpm | hpe
        · exact hdisj kv2 (List.mem_cons_of_mem kv hkv2) p hpm
        · have hpeq : p = (decodeKey kv.1, kv.2) := by simpa using hpe
          subst hpeq
          show decodeKey kv.1 ≠ decodeKey kv2.1
          intro h
          apply hne
          rw [h]
          exact List.mem_map_of_mem _ hkv2
      simp only [List.foldl_cons]
      rw [hup, ih (m ++ [(decodeKey kv.1, kv.2)]) hdisj2 htail]
      simp

/-- C6 counterexample: an alternating key/value reply of length 2·2 whose
two keys case-normalize to the same text folds to a single entry, not
exactly two: the exactly-N-entries clause fails when keys collide. -/
theorem list2dict_dup_key_cex :
    ([RVal.txt "A", RVal.int 1, RVal.txt "a", RVal.int 2] : List RVal).length =
        2 * 2 ∧
      (list2dict [RVal.txt "A", RVal.int 1, RVal.txt "a", RVal.int 2]).length ≠ 2 := by
  exact ⟨rfl, by decide⟩

/-- C6 (amended): folding a flat alternating key/value reply of length 2N
yields one entry per distinct normalized key, in order of first
occurrence; when the N normalized keys are pairwise distinct (the case for
the replies this client decodes) the mapping is exactly the N (key, value)
pairs in reply order: entry j is (even element 2j decoded and
case-normalized, odd element 2j+1), so the length is exactly N. -/
theorem list2dict_pairs (reply : List RVal) (n : Nat)
    (hlen : reply.length = 2 * n)
    (hnodup : ((pairs reply).map (fun kv => decodeKey kv.1)).Nodup) :
    list2dict reply = (pairs reply).map (fun kv => (decodeKey kv.1, kv.2)) ∧
      (list2dict reply).length = n := by
  have hmain : list2dict reply =
      (pairs reply).map (fun kv => (decodeKey kv.1, kv.2)) := by
    unfold list2dict
    have := foldl_upsert_fresh (pairs reply) [] (by intro kv _ p hp; simp at hp)
      hnodup
    simpa using this
  refine ⟨hmain, ?_⟩
  rw [hmain, List.length_map, pairs_length, hlen]
  omega

/-- Witness for C6 (amended): on a concrete four-element reply with
distinct keys, the fold yields exactly the two pairs in order. -/
theorem list2dict_pairs_witness :
    ([RVal.txt "DType", RVal.txt "FLOAT", RVal.txt "shape",
        RVal.list [RVal.int 2, RVal.int 2]] : List RVal).length = 2 * 2 ∧
      (list2dict [RVal.txt "DType", RVal.txt "FLOAT", RVal.txt "shape",
          RVal.list [RVal.int 2, RVal.int 2]] =
        (pairs [RVal.txt "DType", RVal.txt "FLOAT", RVal.txt "shape",
            RVal.list [RVal.int 2, RVal.int 2]]).map
          (fun kv => (decodeKey kv.1, kv.2)) ∧
      (list2dict [RVal.txt "DType", RVal.txt "FLOAT", RVal.txt "shape",
          RVal.list [RVal.int 2, RVal.int 2]]).length = 2) :=
  ⟨rfl, list2dict_pairs _ 2 rfl (by decide)⟩

/-- C7: on the non-blob, non-metadata path of tensorget the value list is
coerced element-wise (via `un_bytize`) to floating-point exactly when the
declared dtype is FLOAT or DOUBLE, and to integer otherwise; the returned
mapping is the decoded reply with its values entry replaced by the coerced
list. -/
theorem tensorget_values_coercion (reply : List RVal) (dv : RVal)
    (vs : List RVal)
    (hd : lookup (list2dict reply) "dtype" = some dv)
    (hv : lookup (list2dict reply) "values" = some (.list vs)) :
    tensorget_decode false false reply =
        .ok (.dict (upsert (list2dict reply) "values"
          (.list (un_bytize vs
            (if isFloatDtype dv then ScalarKind.float else ScalarKind.int))))) ∧
      (isFloatDtype dv = true ↔ dv = .txt "FLOAT" ∨ dv = .txt "DOUBLE") := by
  constructor
  · simp only [tensorget_decode, hd, hv]
    rfl
  · cases dv <;> simp [isFloatDtype]

/-- Witness for C7: a concrete FLOAT reply gets its two values tagged as
floating-point coercions. -/
theorem tensorget_values_coercion_witness :
    lookup (list2dict [RVal.txt "dtype", RVal.txt "FLOAT", RVal.txt "shape",
        RVal.list [RVal.int 2], RVal.txt "values",
        RVal.list [RVal.txt "1", RVal.txt "2"]]) "dtype" =
        some (.txt "FLOAT") ∧
      (tensorget_decode false false [RVal.txt "dtype", RVal.txt "FLOAT",
          RVal.txt "shape", RVal.list [RVal.int 2], RVal.txt "values",
          RVal.list [RVal.txt "1", RVal.txt "2"]] =
          .ok (.dict (upsert (list2dict [RVal.txt "dtype", RVal.txt "FLOAT",
            RVal.txt "shape", RVal.list [RVal.int 2], RVal.txt "values",
            RVal.list [RVal.txt "1", RVal.txt "2"]]) "values"
            (.list (un_bytize [RVal.txt "1", RVal.txt "2"]
              (if isFloatDtype (.txt "FLOAT") then ScalarKind.float
                else ScalarKind.int))))) ∧
        (isFloatDtype (RVal.txt "FLOAT") = true ↔
          RVal.txt "FLOAT" = .txt "FLOAT" ∨ RVal.txt "FLOAT" = .txt "DOUBLE")) :=
  ⟨rfl, tensorget_values_coercion _ (.txt "FLOAT") [RVal.txt "1", RVal.txt "2"]
    rfl rfl⟩

/-- C8: with meta_only set, the request is exactly
`AI.TENSORGET key META` — the META token is present and neither a blob
nor a value list is requested — and decoding returns the folded metadata
mapping as-is; on the example metadata reply of the spec that mapping holds
shape (2,2) and dtype FLOAT and has no values or blob key. -/
theorem tensorget_meta_only (key : String) (b : Bool) (reply : List RVal) :
    tensorget_args key b true =
        [Tok.str "AI.TENSORGET", Tok.str key, Tok.str "META"] ∧
      Tok.str "META" ∈ tensorget_args key b true ∧
      tensorget_decode b true reply = .ok (.dict (list2dict reply)) ∧
      tensorget_decode b true [RVal.txt "dtype", RVal.txt "FLOAT",
          RVal.txt "shape", RVal.list [RVal.int 2, RVal.int 2]] =
        .ok (.dict [("dtype", RVal.txt "FLOAT"),
          ("shape", RVal.list [RVal.int 2, RVal.int 2])]) ∧
      lookup (list2dict [RVal.txt "dtype", RVal.txt "FLOAT", RVal.txt "shape",
          RVal.list [RVal.int 2, RVal.int 2]]) "values" = none ∧
      lookup (list2dict [RVal.txt "dtype", RVal.txt "FLOAT", RVal.txt "shape",
          RVal.list [RVal.int 2, RVal.int 2]]) "blob" = none := by
  refine ⟨rfl, by simp [tensorget_args], rfl, rfl, rfl, rfl⟩

end RedisAI
